import Mathlib

/-!
Verification of the department-portal backend (two variants of the same
Express service: `src/server.js`, PostgreSQL, and `src/unnamed/part_000`,
MySQL) against its natural-language specification.

The single table `class_semester_info` is modelled as a `List DbRecord`
(row order = physical scan order; `LIMIT 1` without `ORDER BY` takes the
first row in that order, and `SELECT DISTINCT` without `ORDER BY` returns
the distinct values in a deterministic dedup order).  Nullable SQL text
columns are `Option String` (`none` = SQL NULL).  JavaScript
`String.prototype.trim` and SQL `TRIM` are both modelled by `jsTrim`
(strip leading/trailing whitespace); SQL `=` on text is exact string
equality and `NULL` never compares equal to anything.
-/

/-- Strip leading and trailing whitespace: model of both JavaScript
`String.prototype.trim()` and SQL `TRIM(col)`. -/
def jsTrim (s : String) : String :=
  ⟨((s.data.dropWhile Char.isWhitespace).reverse.dropWhile Char.isWhitespace).reverse⟩

/-- All-decimal-digit parse helper for `jsNumber`. -/
def parseDigits : List Char → Option Nat
  | [] => none
  | cs =>
    if cs.all Char.isDigit then
      some (cs.foldl (fun a c => a * 10 + (c.toNat - 48)) 0)
    else none

/-- Signed integer numeral parse helper for `jsNumber`. -/
def parseIntString (s : String) : Option Int :=
  match s.data with
  | '-' :: rest => (parseDigits rest).map (fun n => -(n : Int))
  | '+' :: rest => (parseDigits rest).map (fun n => (n : Int))
  | l => (parseDigits l).map (fun n => (n : Int))

/-- JavaScript `Number(s)` on a string, restricted to integer outcomes:
`some n` when the trimmed string is an integer numeral (the empty or
all-whitespace string coerces to `0` as in JS), `none` when the value is
not an integer (JS `NaN`, or a fractional value; neither compares equal to
any stored integer semester, so both mean "matches no row"). -/
def jsNumber (s : String) : Option Int :=
  let t := jsTrim s
  if t = "" then some 0 else parseIntString t

/-- `Number` applied to a possibly-missing query parameter
(`Number(undefined)` is `NaN`). -/
def jsNumberOpt : Option String → Option Int
  | none => none
  | some s => jsNumber s

/-- One row of the `class_semester_info` table. -/
structure DbRecord where
  id : Nat
  class_name : Option String
  semester : Int
  «section» : Option String
  academic_year : Option String
  mentor_name : Option String
  designation : Option String
  contact : Option String
  timetable_link : Option String
  syllabus_link : Option String
  mentor_photo : Option String
deriving DecidableEq, Repr

/-- Row filter of the `/api/details` query in the section-supplied branch
(`WHERE TRIM(class_name)=$1 AND semester=$2 AND TRIM(section)=$3`);
identical SQL in both variants.  A NULL column never satisfies `TRIM(col)=v`. -/
def detailsSectionPred (cls sec : String) (sem : Int) (r : DbRecord) : Bool :=
  (r.class_name.map jsTrim == some cls) && (r.semester == sem) &&
    (r.«section».map jsTrim == some sec)

/-- Row filter of the `/api/details` query in the no-section branch
(`WHERE TRIM(class_name)=$1 AND semester=$2 AND (section IS NULL OR TRIM(section)='')`);
identical SQL in both variants. -/
def detailsNoSectionPred (cls : String) (sem : Int) (r : DbRecord) : Bool :=
  (r.class_name.map jsTrim == some cls) && (r.semester == sem) &&
    (r.«section» == none || r.«section».map jsTrim == some "")

/-- `GET /api/details` (identical logic in `src/server.js` lines 92-131 and
`src/unnamed/part_000` lines 85-119): trims the `class` and `section` query
parameters, coerces `semester` with `Number`, branches on whether the
trimmed section is non-empty, runs the corresponding `LIMIT 1` query and
returns the first matching row, or `none` (JSON `null`) when no row
matches.  A missing `class` parameter binds SQL NULL, which matches no row. -/
def getDetails (store : List DbRecord) (clsQ semQ secQ : Option String) :
    Option DbRecord :=
  match clsQ with
  | none => none
  | some c =>
    let className := jsTrim c
    match jsNumberOpt semQ with
    | none => none
    | some sem =>
      let sectionTrim := jsTrim (secQ.getD "")
      if sectionTrim = "" then
        (store.filter (detailsNoSectionPred className sem)).head?
      else
        (store.filter (detailsSectionPred className sectionTrim sem)).head?

/-- The text fields of an add/update request body (multipart form or JSON);
`none` = field absent (JS `undefined`).  `semester` arrives as a number in
the body; `Number(n)` on a number is the identity, so it is modelled as
already numeric. -/
structure BodyFields where
  class_name : Option String
  semester : Int
  «section» : Option String
  academic_year : Option String
  mentor_name : Option String
  designation : Option String
  contact : Option String
  timetable_link : Option String
deriving DecidableEq, Repr

/-- `String(x || "").trim()` — the pg-variant add normalization for text
fields (`src/server.js` lines 192-198): missing field or empty string
becomes `""`, then trim. -/
def pgAddText (v : Option String) : String := jsTrim (v.getD "")

/-- `timetable_link ? String(timetable_link).trim() : null` — the
pg-variant add rule for the timetable link (`src/server.js` line 199):
missing or empty string becomes NULL, otherwise trimmed. -/
def pgAddTimetable : Option String → Option String
  | none => none
  | some s => if s = "" then none else some (jsTrim s)

/-- `x?.trim()` — the normalization used for text fields by the mysql-variant
add (`src/unnamed/part_000` lines 183-190) and by both variants' update
(`src/server.js` lines 258-265, `src/unnamed/part_000` lines 245-252):
a missing field stays `undefined` and is stored as SQL NULL. -/
def optTrim (v : Option String) : Option String := v.map jsTrim

/-- `section?.trim() || ""` — the section rule of the mysql-variant add and
of both variants' update: trimmed value, or `""` when the field is missing
or trims to the (falsy) empty string. -/
def trimOrEmpty (v : Option String) : String :=
  match v.map jsTrim with
  | none => ""
  | some t => if t = "" then "" else t

/-- An uploaded file as multer hands it to the storage engine. -/
structure UploadedFile where
  fieldname : String
  originalname : String
deriving DecidableEq, Repr

/-- `file.originalname.replace(/\s+/g, "_")` (both variants): every maximal
run of whitespace characters is replaced by a single underscore.  The
`Bool` argument records whether the previous character was whitespace. -/
def collapseWsAux : Bool → List Char → List Char
  | _, [] => []
  | prevWs, c :: rest =>
    if c.isWhitespace then
      (if prevWs then [] else ['_']) ++ collapseWsAux true rest
    else
      c :: collapseWsAux false rest

/-- The sanitized original filename (`safeName` in the source). -/
def safeName (s : String) : String := ⟨collapseWsAux false s.data⟩

/-- `Date.now() + "_" + safeName` — the stored filename: creation timestamp
prefix, underscore, sanitized original name (both variants). -/
def storedFilename (ts : Nat) (orig : String) : String :=
  toString ts ++ "_" ++ safeName orig

/-- The multer `destination` callback (both variants): the upload field name
alone selects the destination directory; any other field name never invokes
the callback. -/
def multerDestination (fieldname : String) : Option String :=
  if fieldname = "syllabus" then some "uploads/syllabus"
  else if fieldname = "mentor_photo" then some "uploads/mentors"
  else none

/-- The row inserted by the pg-variant `POST /api/admin/add`
(`src/server.js` lines 183-203): text fields via `String(x || "").trim()`,
timetable via the ternary rule, attachment columns holding the public path
of the stored file or NULL when the field was not uploaded. -/
def pgAddRecord (newId : Nat) (b : BodyFields) (syl pho : Option UploadedFile)
    (ts : Nat) : DbRecord :=
  ⟨newId,
    some (pgAddText b.class_name),
    b.semester,
    some (pgAddText b.«section»),
    some (pgAddText b.academic_year),
    some (pgAddText b.mentor_name),
    some (pgAddText b.designation),
    some (pgAddText b.contact),
    pgAddTimetable b.timetable_link,
    syl.map (fun f => "/uploads/syllabus/" ++ storedFilename ts f.originalname),
    pho.map (fun f => "/uploads/mentors/" ++ storedFilename ts f.originalname)⟩

/-- The row inserted by the mysql-variant `POST /api/admin/add`
(`src/unnamed/part_000` lines 180-198): text fields via `x?.trim()`
(missing field stored as NULL), section via `section?.trim() || ""`,
attachment columns as in the pg variant. -/
def mysqlAddRecord (newId : Nat) (b : BodyFields) (syl pho : Option UploadedFile)
    (ts : Nat) : DbRecord :=
  ⟨newId,
    optTrim b.class_name,
    b.semester,
    some (trimOrEmpty b.«section»),
    optTrim b.academic_year,
    optTrim b.mentor_name,
    optTrim b.designation,
    optTrim b.contact,
    optTrim b.timetable_link,
    syl.map (fun f => "/uploads/syllabus/" ++ storedFilename ts f.originalname),
    pho.map (fun f => "/uploads/mentors/" ++ storedFilename ts f.originalname)⟩

/-- Effect of `PUT /api/admin/update/:id` on the matching row — identical
JavaScript in both variants (`src/server.js` lines 250-268,
`src/unnamed/part_000` lines 242-254): overwrites the eight
classification/descriptive columns via `x?.trim()` (section via
`section?.trim() || ""`), and does not mention `syllabus_link` or
`mentor_photo` in the `SET` clause. -/
def updateApply (b : BodyFields) (r : DbRecord) : DbRecord :=
  ⟨r.id,
    optTrim b.class_name,
    b.semester,
    some (trimOrEmpty b.«section»),
    optTrim b.academic_year,
    optTrim b.mentor_name,
    optTrim b.designation,
    optTrim b.contact,
    optTrim b.timetable_link,
    r.syllabus_link,
    r.mentor_photo⟩

/-- `UPDATE ... WHERE id=?` applied to the whole table: rows with another id
are untouched; acts on zero or one row since ids are unique in practice. -/
def updateStore (store : List DbRecord) (id : Nat) (b : BodyFields) :
    List DbRecord :=
  store.map (fun r => if r.id == id then updateApply b r else r)

/-- `DELETE FROM class_semester_info WHERE id=?` (both variants). -/
def deleteStore (store : List DbRecord) (id : Nat) : List DbRecord :=
  store.filter (fun r => !(r.id == id))

/-- Lexicographic comparison of character lists by code point: the model of
SQL `ORDER BY` on a text column. -/
def charListLe : List Char → List Char → Bool
  | [], _ => true
  | _ :: _, [] => false
  | a :: as, b :: bs =>
    if a.toNat < b.toNat then true
    else if b.toNat < a.toNat then false
    else charListLe as bs

/-- `charListLe` is total (used by the `IsTotal` instance below). -/
def charListLe_total : ∀ as bs, charListLe as bs = true ∨ charListLe bs as = true := by
  intro as
  induction as with
  | nil => intro bs; left; rfl
  | cons a as ih =>
    intro bs
    cases bs with
    | nil => right; rfl
    | cons b bs =>
      by_cases hab : a.toNat < b.toNat
      · left; simp [charListLe, hab]
      · by_cases hba : b.toNat < a.toNat
        · right; simp [charListLe, hba]
        · rcases ih bs with h | h
          · left; simp [charListLe, hab, hba, h]
          · right; simp [charListLe, hab, hba, h]

/-- `charListLe` is transitive (used by the `IsTrans` instance below). -/
def charListLe_trans : ∀ as bs cs, charListLe as bs = true →
    charListLe bs cs = true → charListLe as cs = true := by
  intro as
  induction as with
  | nil => intro bs cs _ _; rfl
  | cons a as ih =>
    intro bs cs hab hbc
    cases bs with
    | nil => simp [charListLe] at hab
    | cons b bs =>
      cases cs with
      | nil => simp [charListLe] at hbc
      | cons c cs =>
        simp only [charListLe] at hab hbc ⊢
        by_cases h1 : a.toNat < b.toNat
        · by_cases h2 : b.toNat < c.toNat
          · have hac : a.toNat < c.toNat := Nat.lt_trans h1 h2
            simp [hac]
          · by_cases h3 : c.toNat < b.toNat
            · simp [h2, h3] at hbc
            · have hac : a.toNat < c.toNat := by omega
              simp [hac]
        · by_cases h4 : b.toNat < a.toNat
          · simp [h1, h4] at hab
          · by_cases h2 : b.toNat < c.toNat
            · have hac : a.toNat < c.toNat := by omega
              simp [hac]
            · by_cases h3 : c.toNat < b.toNat
              · simp [h2, h3] at hbc
              · have hac : ¬ a.toNat < c.toNat := by omega
                have hca : ¬ c.toNat < a.toNat := by omega
                simp [h1, h4] at hab
                simp [h2, h3] at hbc
                simp [hac, hca]
                exact ih bs cs hab hbc

/-- SQL text `ORDER BY` comparison lifted to `String`. -/
def strLe (a b : String) : Bool := charListLe a.data b.data

/-- `ORDER BY` on a nullable text column, ascending with NULLs last
(PostgreSQL default). -/
def nullsLastLe : Option String → Option String → Bool
  | none, none => true
  | none, some _ => false
  | some _, none => true
  | some a, some b => strLe a b

/-- `nullsLastLe` as a relation, for `List.insertionSort` and `List.Sorted`. -/
def nullsLastRel (a b : Option String) : Prop := nullsLastLe a b = true

instance : DecidableRel nullsLastRel := fun a b =>
  inferInstanceAs (Decidable (nullsLastLe a b = true))

instance : IsTotal (Option String) nullsLastRel where
  total a b := by
    cases a with
    | none => cases b with
      | none => left; rfl
      | some s => right; rfl
    | some x => cases b with
      | none => left; rfl
      | some y => exact charListLe_total x.data y.data

instance : IsTrans (Option String) nullsLastRel where
  trans a b c hab hbc := by
    cases a with
    | none =>
      cases b with
      | none => exact hbc
      | some y => exact absurd hab (by simp [nullsLastRel, nullsLastLe])
    | some x =>
      cases c with
      | none => rfl
      | some z =>
        cases b with
        | none => exact absurd hbc (by simp [nullsLastRel, nullsLastLe])
        | some y => exact charListLe_trans x.data y.data z.data hab hbc

/-- `GET /api/classes`, pg variant (`src/server.js` lines 41-50):
`SELECT DISTINCT class_name FROM class_semester_info ORDER BY class_name`. -/
def classesPg (store : List DbRecord) : List (Option String) :=
  List.insertionSort nullsLastRel ((store.map (·.class_name)).dedup)

/-- `GET /api/classes`, mysql variant (`src/unnamed/part_000` lines 40-46):
`SELECT DISTINCT class_name FROM class_semester_info` — no `ORDER BY`, so the
distinct values come back in scan/dedup order. -/
def classesMysql (store : List DbRecord) : List (Option String) :=
  (store.map (·.class_name)).dedup

/-- `GET /api/semesters`, pg variant (`src/server.js` lines 55-65):
`SELECT DISTINCT semester ... WHERE class_name=$1 ORDER BY semester`. -/
def semestersPg (store : List DbRecord) (cls : String) : List Int :=
  List.insertionSort (· ≤ ·)
    (((store.filter (fun r => r.class_name == some cls)).map (·.semester)).dedup)

/-- `GET /api/semesters`, mysql variant (`src/unnamed/part_000` lines 51-58):
same query without `ORDER BY`. -/
def semestersMysql (store : List DbRecord) (cls : String) : List Int :=
  ((store.filter (fun r => r.class_name == some cls)).map (·.semester)).dedup

/-- Row filter of `GET /api/sections`, pg variant (`src/server.js` lines
70-87): `class_name=$1 AND semester=$2 AND section IS NOT NULL AND
TRIM(section) <> ''`. -/
def sectionsPredPg (cls : String) (sem : Int) (r : DbRecord) : Bool :=
  (r.class_name == some cls) && (r.semester == sem) &&
    !(r.«section» == none) && !(r.«section».map jsTrim == some "")

/-- Row filter of `GET /api/sections`, mysql variant (`src/unnamed/part_000`
lines 63-80): `class_name=? AND semester=? AND section IS NOT NULL AND
section!=''` — no `TRIM` on the stored value. -/
def sectionsPredMysql (cls : String) (sem : Int) (r : DbRecord) : Bool :=
  (r.class_name == some cls) && (r.semester == sem) &&
    !(r.«section» == none) && !(r.«section» == some "")

/-- `GET /api/sections`, pg variant: the distinct section values of the
rows passing `sectionsPredPg` (no `ORDER BY`). -/
def sectionsPg (store : List DbRecord) (cls : String) (sem : Int) : List String :=
  ((store.filter (sectionsPredPg cls sem)).filterMap (·.«section»)).dedup

/-- `GET /api/sections`, mysql variant: the distinct section values of the
rows passing `sectionsPredMysql`. -/
def sectionsMysql (store : List DbRecord) (cls : String) (sem : Int) : List String :=
  ((store.filter (sectionsPredMysql cls sem)).filterMap (·.«section»)).dedup

/-- Summary projection returned by `GET /api/admin/records`
(`SELECT id, class_name, semester, section, mentor_name, designation`). -/
structure AdminRow where
  id : Nat
  class_name : Option String
  semester : Int
  «section» : Option String
  mentor_name : Option String
  designation : Option String
deriving DecidableEq, Repr

/-- Projection of a table row to the admin summary columns. -/
def adminProj (r : DbRecord) : AdminRow :=
  ⟨r.id, r.class_name, r.semester, r.«section», r.mentor_name, r.designation⟩

/-- `ORDER BY class_name, semester` comparison on summary rows. -/
def adminOrd (a b : AdminRow) : Bool :=
  if a.class_name == b.class_name then decide (a.semester ≤ b.semester)
  else nullsLastLe a.class_name b.class_name

/-- `GET /api/admin/records` result: every row's summary projection,
ordered by class name then semester (`src/server.js` lines 217-231). -/
def recordsPg (store : List DbRecord) : List AdminRow :=
  List.insertionSort (fun a b => adminOrd a b = true) (store.map adminProj)

/-- A JSON response body as each endpoint produces it: row arrays for the
lookup endpoints, a single record or `null` for details, `{message}` on
admin success, `{error}` on admin failure. -/
inductive ApiBody where
  | classRows : List (Option String) → ApiBody
  | semRows : List Int → ApiBody
  | secRows : List String → ApiBody
  | detail : Option DbRecord → ApiBody
  | recRows : List AdminRow → ApiBody
  | message : String → ApiBody
  | errorMsg : String → ApiBody
deriving DecidableEq, Repr

/-- `GET /api/classes` handler (`src/server.js` lines 41-50): on a store
fault the catch block sends status 500 with an empty JSON array, otherwise
status 200 with the query rows. -/
def classesHandler (store : List DbRecord) (fault : Bool) : Nat × ApiBody :=
  if fault then (500, ApiBody.classRows [])
  else (200, ApiBody.classRows (classesPg store))

/-- `GET /api/semesters` handler (`src/server.js` lines 55-65): 500 with an
empty array on fault, else 200 with the rows; a missing `class` parameter
binds SQL NULL, which matches no row. -/
def semestersHandler (store : List DbRecord) (cls : Option String)
    (fault : Bool) : Nat × ApiBody :=
  if fault then (500, ApiBody.semRows [])
  else
    (200, ApiBody.semRows (match cls with
      | none => []
      | some c => semestersPg store c))

/-- `GET /api/sections` handler (`src/server.js` lines 70-87): 500 with an
empty array on fault, else 200 with the rows. -/
def sectionsHandler (store : List DbRecord) (cls : String) (sem : Int)
    (fault : Bool) : Nat × ApiBody :=
  if fault then (500, ApiBody.secRows [])
  else (200, ApiBody.secRows (sectionsPg store cls sem))

/-- `GET /api/details` handler (`src/server.js` lines 92-131): 500 with
body `null` on fault, else 200 with the single row or `null`. -/
def detailsHandler (store : List DbRecord) (clsQ semQ secQ : Option String)
    (fault : Bool) : Nat × ApiBody :=
  if fault then (500, ApiBody.detail none)
  else (200, ApiBody.detail (getDetails store clsQ semQ secQ))

/-- `GET /api/admin/records` handler (`src/server.js` lines 217-231). -/
def recordsHandler (store : List DbRecord) (fault : Bool) : Nat × ApiBody :=
  if fault then (500, ApiBody.recRows [])
  else (200, ApiBody.recRows (recordsPg store))

/-- `POST /api/admin/add` handler, pg variant (`src/server.js` lines
156-212): on insert fault, 500 `{error: "Insert failed"}` and the store is
unchanged; on success the new row is appended and the response is the
success message.  `newId` is the store-generated id, `ts` the `Date.now()`
timestamp used for stored filenames. -/
def addHandler (store : List DbRecord) (newId : Nat) (b : BodyFields)
    (syl pho : Option UploadedFile) (ts : Nat) (fault : Bool) :
    List DbRecord × Nat × ApiBody :=
  if fault then (store, 500, ApiBody.errorMsg "Insert failed")
  else (store ++ [pgAddRecord newId b syl pho ts], 200,
    ApiBody.message "Record added successfully")

/-- `PUT /api/admin/update/:id` handler (identical responses in both
variants, `src/server.js` lines 236-274, `src/unnamed/part_000` lines
221-260): 500 `{error: "Update failed"}` on fault, otherwise the update is
applied and the success message returned — regardless of how many rows
(zero or one) matched the id. -/
def updateHandler (store : List DbRecord) (id : Nat) (b : BodyFields)
    (fault : Bool) : List DbRecord × Nat × ApiBody :=
  if fault then (store, 500, ApiBody.errorMsg "Update failed")
  else (updateStore store id b, 200, ApiBody.message "Record updated successfully")

/-- `DELETE /api/admin/delete/:id` handler (both variants, `src/server.js`
lines 279-289, `src/unnamed/part_000` lines 265-274): 500
`{error: "Delete failed"}` on fault, otherwise the matching row (if any) is
removed and the success message returned — also when no row matched. -/
def deleteHandler (store : List DbRecord) (id : Nat) (fault : Bool) :
    List DbRecord × Nat × ApiBody :=
  if fault then (store, 500, ApiBody.errorMsg "Delete failed")
  else (deleteStore store id, 200, ApiBody.message "Record deleted successfully")

/-- Minimal row constructor for concrete counterexamples and witnesses:
only id, class name, semester and section vary, every other column NULL. -/
def mkRow (i : Nat) (cls : Option String) (sem : Int) (sec : Option String) :
    DbRecord :=
  ⟨i, cls, sem, sec, none, none, none, none, none, none, none⟩

/-- Sample row used to instantiate hypotheses of the proved theorems. -/
def sampleRow : DbRecord :=
  ⟨1, some "CS101", 3, some "A", some "2024", some "Dr. X", some "Prof",
    some "555", none, none, none⟩

/-- The first row of a filtered scan is absent iff no row passes the filter. -/
theorem filter_head_eq_none {α : Type} (p : α → Bool) (l : List α) :
    (l.filter p).head? = none ↔ ∀ a ∈ l, ¬ p a := by
  simp [List.head?_eq_none_iff, List.filter_eq_nil_iff]

/-- The first row of a filtered scan is a table row that passes the filter. -/
theorem filter_head_eq_some {α : Type} (p : α → Bool) (l : List α) (a : α)
    (h : (l.filter p).head? = some a) : a ∈ l ∧ p a := by
  have hm : a ∈ l.filter p := List.mem_of_mem_head? (by simp [h])
  exact List.mem_filter.mp hm

/-- Prop form of `detailsSectionPred`. -/
theorem detailsSectionPred_iff (cls sec : String) (sem : Int) (r : DbRecord) :
    detailsSectionPred cls sec sem r = true ↔
      (r.class_name.map jsTrim = some cls ∧ r.semester = sem ∧
        r.«section».map jsTrim = some sec) := by
  simp [detailsSectionPred, Bool.and_eq_true, and_assoc]

/-- Prop form of `detailsNoSectionPred`. -/
theorem detailsNoSectionPred_iff (cls : String) (sem : Int) (r : DbRecord) :
    detailsNoSectionPred cls sem r = true ↔
      (r.class_name.map jsTrim = some cls ∧ r.semester = sem ∧
        (r.«section» = none ∨ r.«section».map jsTrim = some "")) := by
  simp [detailsNoSectionPred, Bool.and_eq_true, Bool.or_eq_true, and_assoc]

/-- C1: the details lookup with a non-empty trimmed section matches exactly
the stored rows whose trimmed class name, semester and trimmed section
equal the (trimmed) inputs; with an omitted or trimmed-to-empty section it
matches rows whose stored section is NULL or trims to empty; it returns at
most one row (`Option` result) and `none` — JSON `null`, not an error —
exactly when zero rows match. -/
theorem c1_details_lookup (store : List DbRecord) (c semStr sec : String) (n : Int)
    (hn : jsNumber semStr = some n) :
    (jsTrim sec ≠ "" →
      ((getDetails store (some c) (some semStr) (some sec) = none ↔
          ∀ r ∈ store, ¬(r.class_name.map jsTrim = some (jsTrim c) ∧ r.semester = n ∧
            r.«section».map jsTrim = some (jsTrim sec))) ∧
        ∀ r, getDetails store (some c) (some semStr) (some sec) = some r →
          r ∈ store ∧ r.class_name.map jsTrim = some (jsTrim c) ∧ r.semester = n ∧
            r.«section».map jsTrim = some (jsTrim sec))) ∧
    (jsTrim sec = "" →
      ((getDetails store (some c) (some semStr) (some sec) = none ↔
          ∀ r ∈ store, ¬(r.class_name.map jsTrim = some (jsTrim c) ∧ r.semester = n ∧
            (r.«section» = none ∨ r.«section».map jsTrim = some ""))) ∧
        ∀ r, getDetails store (some c) (some semStr) (some sec) = some r →
          r ∈ store ∧ r.class_name.map jsTrim = some (jsTrim c) ∧ r.semester = n ∧
            (r.«section» = none ∨ r.«section».map jsTrim = some ""))) ∧
    getDetails store (some c) (some semStr) none =
      getDetails store (some c) (some semStr) (some "") := by
  have hsem : jsNumberOpt (some semStr) = some n := hn
  refine ⟨fun hne => ?_, fun he => ?_, ?_⟩
  · have hd : getDetails store (some c) (some semStr) (some sec) =
        (store.filter (detailsSectionPred (jsTrim c) (jsTrim sec) n)).head? := by
      simp [getDetails, hsem, hne]
    rw [hd]
    constructor
    · rw [filter_head_eq_none]
      exact forall₂_congr fun r _ => by rw [detailsSectionPred_iff]
    · intro r hr
      obtain ⟨hmem, hp⟩ := filter_head_eq_some _ _ _ hr
      exact ⟨hmem, (detailsSectionPred_iff _ _ _ _).mp hp⟩
  · have hd : getDetails store (some c) (some semStr) (some sec) =
        (store.filter (detailsNoSectionPred (jsTrim c) n)).head? := by
      simp [getDetails, hsem, he]
    rw [hd]
    constructor
    · rw [filter_head_eq_none]
      exact forall₂_congr fun r _ => by rw [detailsNoSectionPred_iff]
    · intro r hr
      obtain ⟨hmem, hp⟩ := filter_head_eq_some _ _ _ hr
      exact ⟨hmem, (detailsNoSectionPred_iff _ _ _).mp hp⟩
  · simp [getDetails, hsem]

/-- Claim C1 witness: the theorem applied at a concrete one-row store and the
query `class=CS101&semester=3&section=A`, whose result row indeed carries the
requested trimmed class, semester and trimmed section. -/
theorem c1_details_lookup_witness :
    sampleRow ∈ [sampleRow] ∧
      sampleRow.class_name.map jsTrim = some (jsTrim "CS101") ∧
      sampleRow.semester = 3 ∧
      sampleRow.«section».map jsTrim = some (jsTrim "A") :=
  ((c1_details_lookup [sampleRow] "CS101" "3" "A" 3 (by decide)).1
    (by decide)).2 sampleRow (by decide)

/-- C3 counterexample: on the two-row store with class names "B" then "A",
the mysql-variant classes lookup (`SELECT DISTINCT class_name` with no
`ORDER BY`) returns the distinct names in scan order, `["B", "A"]`, which is
not sorted ascending — so the claim that the classes lookup returns the
names sorted ascending fails on the code. -/
theorem c3_classes_counterexample :
    classesMysql [mkRow 1 (some "B") 1 none, mkRow 2 (some "A") 1 none] =
      [some "B", some "A"] ∧
    ¬ List.Sorted nullsLastRel [some "B", some "A"] := by
  constructor
  · decide
  · decide

/-- C3 (amended): both variants return exactly the distinct class-name
column values of the store, each exactly once; the pg variant additionally
returns them sorted ascending (NULLs last), while the mysql variant gives
no sort guarantee (scan/dedup order). -/
theorem c3_classes_lookup (store : List DbRecord) :
    (classesPg store).Nodup ∧
    (∀ c, c ∈ classesPg store ↔ c ∈ store.map (·.class_name)) ∧
    List.Sorted nullsLastRel (classesPg store) ∧
    (classesMysql store).Nodup ∧
    (∀ c, c ∈ classesMysql store ↔ c ∈ store.map (·.class_name)) := by
  have hperm : List.Perm
      (List.insertionSort nullsLastRel ((store.map (·.class_name)).dedup))
      ((store.map (·.class_name)).dedup) := List.perm_insertionSort _ _
  refine ⟨?_, ?_, ?_, ?_, ?_⟩
  · exact hperm.symm.nodup (List.nodup_dedup _)
  · intro c
    rw [classesPg, hperm.mem_iff]
    exact List.mem_dedup
  · exact List.sorted_insertionSort _ _
  · exact List.nodup_dedup _
  · intro c
    exact List.mem_dedup

/-- C4 counterexample: for class "X" with rows in semesters 2 then 1, the
mysql-variant semesters lookup (no `ORDER BY`) returns `[2, 1]`, which is
not ascending — so the claim that the semesters lookup returns the values
ordered ascending fails on the code. -/
theorem c4_semesters_counterexample :
    semestersMysql [mkRow 1 (some "X") 2 none, mkRow 2 (some "X") 1 none] "X" =
      [2, 1] ∧
    ¬ List.Sorted (· ≤ ·) ([2, 1] : List Int) := by
  constructor
  · decide
  · decide

/-- C4 (amended): both variants return the distinct semester values of the
given class's rows with no duplicates, and return the empty set (never an
error — the result type has no error outcome on this path) exactly when no
row has that class name; the pg variant additionally sorts ascending, the
mysql variant gives no sort guarantee. -/
theorem c4_semesters_lookup (store : List DbRecord) (cls : String) :
    (semestersPg store cls).Nodup ∧
    List.Sorted (· ≤ ·) (semestersPg store cls) ∧
    (∀ n, n ∈ semestersPg store cls ↔
      ∃ r ∈ store, r.class_name = some cls ∧ r.semester = n) ∧
    (semestersPg store cls = [] ↔ ∀ r ∈ store, r.class_name ≠ some cls) ∧
    (semestersMysql store cls).Nodup ∧
    (∀ n, n ∈ semestersMysql store cls ↔
      ∃ r ∈ store, r.class_name = some cls ∧ r.semester = n) ∧
    (semestersMysql store cls = [] ↔ ∀ r ∈ store, r.class_name ≠ some cls) := by
  have hperm : List.Perm
      (List.insertionSort (· ≤ ·)
        (((store.filter (fun r => r.class_name == some cls)).map
          (·.semester)).dedup))
      (((store.filter (fun r => r.class_name == some cls)).map
        (·.semester)).dedup) := List.perm_insertionSort _ _
  have hmem : ∀ n : Int,
      n ∈ ((store.filter (fun r => r.class_name == some cls)).map
          (·.semester)).dedup ↔
        ∃ r ∈ store, r.class_name = some cls ∧ r.semester = n := by
    intro n
    simp [List.mem_dedup, List.mem_map, List.mem_filter]
    constructor
    · rintro ⟨r, ⟨hr, hc⟩, hs⟩
      exact ⟨r, hr, hc, hs⟩
    · rintro ⟨r, hr, hc, hs⟩
      exact ⟨r, ⟨hr, hc⟩, hs⟩
  have hempty :
      ((store.filter (fun r => r.class_name == some cls)).map
          (·.semester)).dedup = [] ↔
        ∀ r ∈ store, r.class_name ≠ some cls := by
    rw [List.dedup_eq_nil, List.map_eq_nil_iff, List.filter_eq_nil_iff]
    constructor
    · intro h r hr
      simpa using h r hr
    · intro h r hr
      simpa using h r hr
  refine ⟨?_, ?_, ?_, ?_, ?_, ?_, ?_⟩
  · exact hperm.symm.nodup (List.nodup_dedup _)
  · exact List.sorted_insertionSort _ _
  · intro n
    rw [semestersPg, hperm.mem_iff]
    exact hmem n
  · rw [semestersPg]
    constructor
    · intro h
      have hl := hperm.length_eq
      rw [h] at hl
      exact hempty.mp (List.length_eq_zero.mp hl.symm)
    · intro h
      have hd := hempty.mpr h
      rw [hd]
      rfl
  · exact List.nodup_dedup _
  · exact hmem
  · exact hempty

/-- C2 counterexample: a stored row for (class "X", semester 1) whose
section is the whitespace-only string `" "` is returned by the
mysql-variant sections lookup (its filter is `section!=''` with no `TRIM`),
contradicting the claim that every record whose section is
empty/whitespace-only after trimming is excluded. -/
theorem c2_sections_counterexample :
    sectionsMysql [mkRow 1 (some "X") 1 (some " ")] "X" 1 = [" "] ∧
    jsTrim " " = "" := by
  exact ⟨by decide, by decide⟩

/-- C2 (amended): both variants return the distinct section values of the
rows matching the (class, semester) pair with no duplicates; the pg variant
excludes exactly the rows whose section is NULL or trims to empty
(null and whitespace-only treated as equivalent "no section" states), while
the mysql variant excludes only NULL and the exactly-empty string and does
return whitespace-only sections; a pair whose rows all have NULL or
trims-to-empty sections yields the empty set in the pg variant. -/
theorem c2_sections_lookup (store : List DbRecord) (cls : String) (sem : Int) :
    (sectionsPg store cls sem).Nodup ∧
    (∀ s, s ∈ sectionsPg store cls sem ↔
      ∃ r ∈ store, r.class_name = some cls ∧ r.semester = sem ∧
        r.«section» = some s ∧ jsTrim s ≠ "") ∧
    (sectionsMysql store cls sem).Nodup ∧
    (∀ s, s ∈ sectionsMysql store cls sem ↔
      ∃ r ∈ store, r.class_name = some cls ∧ r.semester = sem ∧
        r.«section» = some s ∧ s ≠ "") ∧
    ((∀ r ∈ store, r.class_name = some cls → r.semester = sem →
        r.«section» = none ∨ r.«section».map jsTrim = some "") →
      sectionsPg store cls sem = []) := by
  have hpg : ∀ s, s ∈ sectionsPg store cls sem ↔
      ∃ r ∈ store, r.class_name = some cls ∧ r.semester = sem ∧
        r.«section» = some s ∧ jsTrim s ≠ "" := by
    intro s
    rw [sectionsPg, List.mem_dedup, List.mem_filterMap]
    constructor
    · rintro ⟨r, hrf, hsec⟩
      obtain ⟨hr, hp⟩ := List.mem_filter.mp hrf
      simp only [sectionsPredPg, Bool.and_eq_true, Bool.not_eq_true',
        beq_iff_eq, beq_eq_false_iff_ne, ne_eq] at hp
      refine ⟨r, hr, hp.1.1.1, hp.1.1.2, hsec, ?_⟩
      intro htr
      exact hp.2 (by rw [hsec]; simp [htr])
    · rintro ⟨r, hr, hc, hs, hsec, htr⟩
      refine ⟨r, List.mem_filter.mpr ⟨hr, ?_⟩, hsec⟩
      simp only [sectionsPredPg, Bool.and_eq_true, Bool.not_eq_true',
        beq_iff_eq, beq_eq_false_iff_ne, ne_eq]
      refine ⟨⟨⟨hc, hs⟩, by simp [hsec]⟩, ?_⟩
      rw [hsec]
      simpa using htr
  refine ⟨List.nodup_dedup _, hpg, List.nodup_dedup _, ?_, ?_⟩
  · intro s
    rw [sectionsMysql, List.mem_dedup, List.mem_filterMap]
    constructor
    · rintro ⟨r, hrf, hsec⟩
      obtain ⟨hr, hp⟩ := List.mem_filter.mp hrf
      simp only [sectionsPredMysql, Bool.and_eq_true, Bool.not_eq_true',
        beq_iff_eq, beq_eq_false_iff_ne, ne_eq] at hp
      refine ⟨r, hr, hp.1.1.1, hp.1.1.2, hsec, ?_⟩
      intro hempty
      exact hp.2 (by rw [hsec, hempty])
    · rintro ⟨r, hr, hc, hs, hsec, hne⟩
      refine ⟨r, List.mem_filter.mpr ⟨hr, ?_⟩, hsec⟩
      simp only [sectionsPredMysql, Bool.and_eq_true, Bool.not_eq_true',
        beq_iff_eq, beq_eq_false_iff_ne, ne_eq]
      exact ⟨⟨⟨hc, hs⟩, by simp [hsec]⟩, by simp [hsec, hne]⟩
  · intro hall
    rw [List.eq_nil_iff_forall_not_mem]
    intro s hs
    obtain ⟨r, hr, hc, hsem, hsec, htr⟩ := (hpg s).mp hs
    rcases hall r hr hc hsem with h | h
    · rw [hsec] at h
      exact Option.some_ne_none s h
    · rw [hsec] at h
      simp only [Option.map] at h
      exact htr (by simpa using h)

/-- Claim C2 witness: the theorem at a concrete store — a pair whose only
rows carry section NULL and section `" "` yields the empty set in the pg
variant. -/
theorem c2_sections_lookup_witness :
    sectionsPg [mkRow 1 (some "X") 1 none, mkRow 2 (some "X") 1 (some " ")]
      "X" 1 = [] :=
  (c2_sections_lookup
      [mkRow 1 (some "X") 1 none, mkRow 2 (some "X") 1 (some " ")] "X" 1).2.2.2.2
    (by decide)

/-- C5: a details request whose semester query string is non-numeric
(`Number` yields `NaN`, which equals no stored integer) matches no row: the
lookup returns `none` and the handler answers 200 with body `null` — a
no-match signal, not an error response. -/
theorem c5_nonnumeric_semester (store : List DbRecord) (c semStr : String)
    (secQ : Option String) (h : jsNumber semStr = none) :
    getDetails store (some c) (some semStr) secQ = none ∧
    detailsHandler store (some c) (some semStr) secQ false =
      (200, ApiBody.detail none) := by
  have hg : getDetails store (some c) (some semStr) secQ = none := by
    simp [getDetails, jsNumberOpt, h]
  exact ⟨hg, by simp [detailsHandler, hg]⟩

/-- Claim C5 witness: `/api/details?class=CS101&semester=xyz&section=A`
against a concrete store returns `null` with status 200. -/
theorem c5_nonnumeric_semester_witness :
    getDetails [sampleRow] (some "CS101") (some "xyz") (some "A") = none ∧
    detailsHandler [sampleRow] (some "CS101") (some "xyz") (some "A") false =
      (200, ApiBody.detail none) :=
  c5_nonnumeric_semester [sampleRow] "CS101" "xyz" (some "A") (by decide)

/-- C6 counterexample: the update operation does NOT use the same
trim/default rules as the pg-variant add.  With the `academic_year` field
missing from the body, the pg add stores the empty string
(`String(x || "").trim()`) while the update stores NULL (`x?.trim()`); with
`timetable_link` present but empty, the pg add stores NULL (ternary) while
the update stores the empty string. -/
theorem c6_update_counterexample :
    (pgAddRecord 1 ⟨none, 1, none, none, none, none, none, none⟩ none none
        0).academic_year = some "" ∧
    (updateApply ⟨none, 1, none, none, none, none, none, none⟩
        sampleRow).academic_year = none ∧
    pgAddTimetable (some "") = none ∧
    optTrim (some "") = some "" := by
  refine ⟨by decide, by decide, by decide, by decide⟩

/-- C6 (amended): the update overwrites all eight classification and
descriptive columns unconditionally — their new values depend only on the
request body, via exactly the trim/default rules of the mysql-variant add
(`x?.trim()`, section `x?.trim() || ""`) — keeps the row id, never touches
the two attachment columns of any row, and leaves rows with a different id
entirely unchanged.  The pg-variant add uses different trim/default rules
(see the counterexample), so "same rules as add" holds only against the
mysql-variant add. -/
theorem c6_update_full_replace (b : BodyFields) (r : DbRecord)
    (newId ts : Nat) (syl pho : Option UploadedFile) :
    (updateApply b r).id = r.id ∧
    (updateApply b r).syllabus_link = r.syllabus_link ∧
    (updateApply b r).mentor_photo = r.mentor_photo ∧
    (updateApply b r).class_name = (mysqlAddRecord newId b syl pho ts).class_name ∧
    (updateApply b r).semester = (mysqlAddRecord newId b syl pho ts).semester ∧
    (updateApply b r).«section» = (mysqlAddRecord newId b syl pho ts).«section» ∧
    (updateApply b r).academic_year =
      (mysqlAddRecord newId b syl pho ts).academic_year ∧
    (updateApply b r).mentor_name =
      (mysqlAddRecord newId b syl pho ts).mentor_name ∧
    (updateApply b r).designation =
      (mysqlAddRecord newId b syl pho ts).designation ∧
    (updateApply b r).contact = (mysqlAddRecord newId b syl pho ts).contact ∧
    (updateApply b r).timetable_link =
      (mysqlAddRecord newId b syl pho ts).timetable_link ∧
    (∀ store : List DbRecord, ∀ id : Nat, ∀ x ∈ store, x.id ≠ id →
      x ∈ updateStore store id b) := by
  refine ⟨rfl, rfl, rfl, rfl, rfl, rfl, rfl, rfl, rfl, rfl, rfl, ?_⟩
  intro store id x hx hne
  rw [updateStore]
  exact List.mem_map.mpr ⟨x, hx, by simp [hne]⟩

/-- Claim C6 witness: on a concrete store, updating id 2 leaves the row
with id 1 in place. -/
theorem c6_update_full_replace_witness :
    sampleRow ∈ updateStore [sampleRow]
      2 ⟨some "N", 4, none, none, none, none, none, none⟩ :=
  (c6_update_full_replace ⟨some "N", 4, none, none, none, none, none, none⟩
      sampleRow 0 0 none none).2.2.2.2.2.2.2.2.2.2.2
    [sampleRow] 2 sampleRow (by decide) (by decide)

/-- No character of a sanitized filename is whitespace: every whitespace
run was replaced by an underscore. -/
theorem collapseWsAux_no_ws : ∀ (b : Bool) (l : List Char),
    ∀ c ∈ collapseWsAux b l, c.isWhitespace = false := by
  intro b l
  induction l generalizing b with
  | nil => intro c hc; simp [collapseWsAux] at hc
  | cons a rest ih =>
    intro c hc
    simp only [collapseWsAux] at hc
    by_cases ha : a.isWhitespace
    · rw [if_pos ha] at hc
      rcases List.mem_append.mp hc with h1 | h2
      · by_cases hb : b
        · simp [hb] at h1
        · simp [hb] at h1
          subst h1
          decide
      · exact ih true c h2
    · rw [if_neg ha] at hc
      rcases List.mem_cons.mp hc with h | h
      · subst h
        simpa using ha
      · exact ih false c h

/-- C7: adding a record with only a syllabus file stores a non-null
syllabus link (the public path of the stored file) and a NULL mentor photo,
in both variants; the stored filename is the creation timestamp, an
underscore, and the original filename with each whitespace run replaced by
an underscore (so it contains no whitespace); the destination area is
selected by the upload field name alone (`syllabus` → the syllabus area,
`mentor_photo` → the mentors area). -/
theorem c7_add_syllabus_only (newId ts : Nat) (b : BodyFields)
    (f : UploadedFile) :
    (pgAddRecord newId b (some f) none ts).syllabus_link =
      some ("/uploads/syllabus/" ++ storedFilename ts f.originalname) ∧
    (pgAddRecord newId b (some f) none ts).syllabus_link ≠ none ∧
    (pgAddRecord newId b (some f) none ts).mentor_photo = none ∧
    (mysqlAddRecord newId b (some f) none ts).syllabus_link =
      some ("/uploads/syllabus/" ++ storedFilename ts f.originalname) ∧
    (mysqlAddRecord newId b (some f) none ts).mentor_photo = none ∧
    storedFilename ts f.originalname =
      toString ts ++ "_" ++ safeName f.originalname ∧
    multerDestination "syllabus" = some "uploads/syllabus" ∧
    multerDestination "mentor_photo" = some "uploads/mentors" ∧
    (∀ c ∈ (safeName f.originalname).data, c.isWhitespace = false) := by
  refine ⟨rfl, by simp [pgAddRecord], rfl, rfl, rfl, rfl, by decide, by decide, ?_⟩
  intro c hc
  exact collapseWsAux_no_ws false f.originalname.data c hc

/-- C8: updating a non-existent id and deleting a non-existent id both
return the success message with the store unchanged, and deleting the same
id twice returns the success message on both calls although the second call
removes no row. -/
theorem c8_missing_id_succeeds (store : List DbRecord) (id : Nat)
    (b : BodyFields) (h : ∀ r ∈ store, r.id ≠ id) :
    updateHandler store id b false =
      (store, 200, ApiBody.message "Record updated successfully") ∧
    deleteHandler store id false =
      (store, 200, ApiBody.message "Record deleted successfully") ∧
    (∀ s : List DbRecord, ∀ j : Nat,
      deleteHandler (deleteStore s j) j false =
        (deleteStore s j, 200, ApiBody.message "Record deleted successfully")) := by
  refine ⟨?_, ?_, ?_⟩
  · have hu : updateStore store id b = store := by
      rw [updateStore]
      induction store with
      | nil => rfl
      | cons a t ih =>
        have ha : (if (a.id == id) = true then updateApply b a else a) = a := by
          simp [h a (by simp)]
        simp only [List.map_cons, ha]
        rw [ih (fun x hx => h x (by simp [hx]))]
    simp [updateHandler, hu]
  · have hd : deleteStore store id = store := by
      rw [deleteStore, List.filter_eq_self]
      intro r hr
      simp [h r hr]
    simp [deleteHandler, hd]
  · intro s j
    have hd2 : deleteStore (deleteStore s j) j = deleteStore s j := by
      rw [deleteStore, deleteStore, List.filter_eq_self]
      intro r hr
      exact (List.mem_filter.mp hr).2
    simp [deleteHandler, hd2]

/-- Claim C8 witness: against the one-row store whose row has id 1, update
and delete on the absent id 2 both report success and change nothing. -/
theorem c8_missing_id_succeeds_witness :
    updateHandler [sampleRow] 2 ⟨some "N", 4, none, none, none, none, none, none⟩
        false =
      ([sampleRow], 200, ApiBody.message "Record updated successfully") ∧
    deleteHandler [sampleRow] 2 false =
      ([sampleRow], 200, ApiBody.message "Record deleted successfully") ∧
    (∀ s : List DbRecord, ∀ j : Nat,
      deleteHandler (deleteStore s j) j false =
        (deleteStore s j, 200, ApiBody.message "Record deleted successfully")) :=
  c8_missing_id_succeeds [sampleRow] 2
    ⟨some "N", 4, none, none, none, none, none, none⟩ (by decide)

/-- C9: every endpoint surfaces a store/query fault as HTTP 500 with an
empty array (classes, semesters, sections, admin records), `null` (details)
or a generic error object (add, update, delete), leaving the store
untouched; without a fault every endpoint answers 200, carrying its query
result as-is — so a not-found outcome is a 200 response with an empty
collection or `null`, never an HTTP error status. -/
theorem c9_fault_and_not_found (store : List DbRecord) (cls : Option String)
    (c : String) (sem : Int) (semQ secQ : Option String) (newId idv ts : Nat)
    (b : BodyFields) (syl pho : Option UploadedFile) :
    classesHandler store true = (500, ApiBody.classRows []) ∧
    semestersHandler store cls true = (500, ApiBody.semRows []) ∧
    sectionsHandler store c sem true = (500, ApiBody.secRows []) ∧
    detailsHandler store (some c) semQ secQ true = (500, ApiBody.detail none) ∧
    recordsHandler store true = (500, ApiBody.recRows []) ∧
    addHandler store newId b syl pho ts true =
      (store, 500, ApiBody.errorMsg "Insert failed") ∧
    updateHandler store idv b true =
      (store, 500, ApiBody.errorMsg "Update failed") ∧
    deleteHandler store idv true =
      (store, 500, ApiBody.errorMsg "Delete failed") ∧
    classesHandler store false = (200, ApiBody.classRows (classesPg store)) ∧
    semestersHandler store (some c) false =
      (200, ApiBody.semRows (semestersPg store c)) ∧
    sectionsHandler store c sem false =
      (200, ApiBody.secRows (sectionsPg store c sem)) ∧
    detailsHandler store (some c) semQ secQ false =
      (200, ApiBody.detail (getDetails store (some c) semQ secQ)) ∧
    recordsHandler store false = (200, ApiBody.recRows (recordsPg store)) := by
  refine ⟨rfl, rfl, rfl, rfl, rfl, rfl, rfl, rfl, rfl, rfl, rfl, rfl, rfl⟩

/-- C10: all four write paths store the section column as a string — never
NULL: the trimmed input when the field is present, the empty string when it
is missing or trims to empty.  The pg add rule `String(x || "").trim()` and
the shared `x?.trim() || ""` rule agree on every input. -/
theorem c10_section_never_null (newId ts : Nat) (b : BodyFields)
    (syl pho : Option UploadedFile) (r : DbRecord) :
    (pgAddRecord newId b syl pho ts).«section» = some (pgAddText b.«section») ∧
    (mysqlAddRecord newId b syl pho ts).«section» =
      some (trimOrEmpty b.«section») ∧
    (updateApply b r).«section» = some (trimOrEmpty b.«section») ∧
    trimOrEmpty b.«section» = pgAddText b.«section» ∧
    pgAddText b.«section» =
      (match b.«section» with
        | none => ""
        | some s => jsTrim s) ∧
    (pgAddRecord newId b syl pho ts).«section» ≠ none ∧
    (mysqlAddRecord newId b syl pho ts).«section» ≠ none ∧
    (updateApply b r).«section» ≠ none := by
  have hagree : trimOrEmpty b.«section» = pgAddText b.«section» := by
    cases hb : b.«section» with
    | none => rfl
    | some s =>
      rw [trimOrEmpty, pgAddText]
      simp only [Option.map, Option.getD]
      by_cases hs : jsTrim s = ""
      · rw [hs]; simp
      · simp [hs]
  have hshape : pgAddText b.«section» =
      (match b.«section» with
        | none => ""
        | some s => jsTrim s) := by
    cases b.«section» with
    | none => rfl
    | some s => rfl
  exact ⟨rfl, rfl, rfl, hagree, hshape, by simp [pgAddRecord],
    by simp [mysqlAddRecord], by simp [updateApply]⟩
